import Mathlib

/-!
Shallow embedding of `src/app.py` (a LinkedIn-post generation pipeline):
`search_topic` (SerpAPI search client), `_call_groq_api` (completion client),
`generate_linkedin_post` (prompt construction + two chained completion calls)
and `process_topic` (the orchestrator).

External HTTP traffic is modelled by an environment `Env` holding the
provider responses an invocation would observe; Python exceptions are
modelled as `Except String` values carrying `str(e)`; the outbound calls an
invocation performs are recorded in an explicit `Event` trace.  Python
dictionaries that the code indexes dynamically (the provider's organic
results and the normalized search results) are modelled as association
lists, so that a missing key is an observable `KeyError`-style failure and
`result.get(k, d)` is a defaulting lookup, exactly as in the source.
-/

set_option autoImplicit false

namespace Clonee

/-- A Python `dict` with string keys and string values, as the code uses it
for provider entries and normalized search results. -/
abbrev Dict := List (String × String)

/-- Python `d.get(k, dflt)`: defaulting lookup, never fails. -/
def dictGetD (d : Dict) (k dflt : String) : String :=
  (d.lookup k).getD dflt

/-- Python `d[k]`: lookup that raises `KeyError(k)` (whose `str` is `'k'`)
when the key is absent. -/
def dictGet (d : Dict) (k : String) : Except String String :=
  match d.lookup k with
  | some v => Except.ok v
  | none => Except.error ("'" ++ k ++ "'")

/-- The search provider's HTTP response: status code, raw body text, and the
parsed JSON body's `organic_results` field (absent, or a list of entries). -/
structure SearchResponse where
  status_code : Nat
  text : String
  organic_results : Option (List Dict)

/-- `message` object of a Groq choice: its `content` field, if present. -/
structure GroqMessage where
  content : Option String

/-- One element of the Groq `choices` array: its `message` field, if present. -/
structure GroqChoice where
  message : Option GroqMessage

/-- Parsed JSON body of a Groq completion response: its `choices` field. -/
structure GroqData where
  choices : Option (List GroqChoice)

/-- The language-model provider's HTTP response. -/
structure GroqResponse where
  status_code : Nat
  text : String
  data : GroqData

/-- One outbound network call performed by the pipeline. -/
inductive Event where
  | searchCall (topic : String)
  | groqCall (prompt : String)
deriving DecidableEq, Repr

/-- The environment one pipeline invocation runs in: the configured
credentials (`os.getenv` results, `none` when unset), the configured
`MAX_SEARCH_RESULTS`, and the responses the two providers would return to
the search call and to the first and second completion calls. -/
structure Env where
  SERPAPI_KEY : Option String
  GROQ_API_KEY : Option String
  MAX_SEARCH_RESULTS : Nat
  searchResp : SearchResponse
  groqResp1 : GroqResponse
  groqResp2 : GroqResponse

/-- Python truthiness of an optional string: `not s` holds when the variable
is unset (`None`) or the empty string. -/
def falsy (s : Option String) : Bool :=
  (s.getD "").isEmpty

/-- Lines 54-57 of `app.py`: one provider entry is normalized to a dict with
exactly the keys `title` and `snippet`, each defaulting to `""` via
`result.get(..., '')`; all other fields of the entry are dropped. -/
def normalize (result : Dict) : Dict :=
  [("title", dictGetD result "title" ""), ("snippet", dictGetD result "snippet" "")]

/-- Lines 51-58 of `app.py`: the normalized result list extracted from a
parsed search response — the first `MAX_SEARCH_RESULTS` organic results,
normalized, or `[]` when the `organic_results` field is absent. -/
def extractResults (resp : SearchResponse) (maxResults : Nat) : List Dict :=
  match resp.organic_results with
  | some rs => (rs.take maxResults).map normalize
  | none => []

/-- `search_topic` (lines 19-63 of `app.py`), with the HTTP GET replaced by
reading `env.searchResp`.  Returns the normalized results or the error
message of the exception raised, together with the outbound calls made. -/
def search_topic (env : Env) (topic : String) : Except String (List Dict) × List Event :=
  if falsy env.SERPAPI_KEY then
    (Except.error "SerpAPI key is not configured", [])
  else if env.searchResp.status_code ≠ 200 then
    (Except.error ("SerpAPI request failed with status code "
        ++ toString env.searchResp.status_code ++ ": " ++ env.searchResp.text),
      [Event.searchCall topic])
  else if (extractResults env.searchResp env.MAX_SEARCH_RESULTS).isEmpty then
    (Except.error "No search results found", [Event.searchCall topic])
  else
    (Except.ok (extractResults env.searchResp env.MAX_SEARCH_RESULTS), [Event.searchCall topic])

/-- Python `str.strip()`: drop leading and trailing whitespace. -/
def strip (s : String) : String :=
  String.mk (((s.data.dropWhile Char.isWhitespace).reverse.dropWhile Char.isWhitespace).reverse)

/-- Line 106 of `app.py`: `response_data["choices"][0]["message"]["content"].strip()`,
with each Python failure mode mapped to the `str` of the exception it raises. -/
def extractContent (d : GroqData) : Except String String :=
  match d.choices with
  | none => Except.error "'choices'"
  | some [] => Except.error "list index out of range"
  | some (c :: _) =>
    match c.message with
    | none => Except.error "'message'"
    | some m =>
      match m.content with
      | none => Except.error "'content'"
      | some s => Except.ok (strip s)

/-- `_call_groq_api` (lines 66-106 of `app.py`), with the HTTP POST replaced
by reading the given response. -/
def call_groq_api (key : Option String) (resp : GroqResponse) (prompt : String) :
    Except String String × List Event :=
  if falsy key then
    (Except.error "GroqCloud API key is not configured", [])
  else if resp.status_code ≠ 200 then
    (Except.error ("GroqCloud API request failed with status code "
        ++ toString resp.status_code ++ ": " ++ resp.text),
      [Event.groqCall prompt])
  else
    (extractContent resp.data, [Event.groqCall prompt])

/-- Line 121 of `app.py`: `f"Title: {result['title']}\nSnippet: {result['snippet']}"`
for one normalized result; dynamic indexing, so a missing key is a failure. -/
def resultLine (result : Dict) : Except String String := do
  let t ← dictGet result "title"
  let s ← dictGet result "snippet"
  Except.ok ("Title: " ++ t ++ "\nSnippet: " ++ s)

/-- Lines 120-123 of `app.py`: the list comprehension formatting each result
in order; the first missing key aborts with its error, as in Python. -/
def buildLines (search_results : List Dict) : Except String (List String) :=
  match search_results with
  | [] => Except.ok []
  | r :: rest => do
    let line ← resultLine r
    let lines ← buildLines rest
    Except.ok (line :: lines)

/-- Lines 120-123 of `app.py`: the context string joining the formatted
results with blank lines. -/
def buildContext (search_results : List Dict) : Except String String := do
  let lines ← buildLines search_results
  Except.ok (String.intercalate "\n\n" lines)

/-- Lines 126-134 of `app.py`: the three literal segments of the summary
prompt f-string, byte-for-byte, around the `topic` and `context` holes. -/
def summarySeg1 : String :=
  "\n    You are a helpful research assistant. Summarize the following search results about \""

def summarySeg2 : String :=
  "\" \n    in a clear, comprehensive way that captures the key information. Focus on recent trends, \n    statistics, expert opinions, and noteworthy developments.\n    SEARCH RESULTS:\n    "

def summarySeg3 : String :=
  "\n    \n    Summary:\n    "

/-- Lines 126-134 of `app.py`: the summary prompt f-string. -/
def summary_prompt (topic context : String) : String :=
  summarySeg1 ++ topic ++ summarySeg2 ++ context ++ summarySeg3

/-- Lines 139-249 of `app.py`: the three literal segments of the post prompt
f-string (the fixed persona/style template), byte-for-byte, around the
`topic` and `summary` holes. -/
def postSeg1 : String :=
  "\n    You're an expert LinkedIn content writer. Write an engaging LinkedIn post about \""

def postSeg2 : String :=
  "\" \n    based on the following research summary:\n    \n    RESEARCH SUMMARY:\n    "

def postSeg3 : String :=
  "\n    \n    Follow these style guidelines:\n    🧠 You are Prerit Singh — a creative AI enthusiast, builder, and storyteller.\nYour posts feel like:\nTalking to a sharp, chilled-out friend\nA human behind the tech, not a robot explaining tech\nSharing real-world experiments with excitement, not just dry facts\n✍️ Writing Style Rules\nTone\nFriendly, approachable, and relatable\nConfident but grounded (not boasting)\nCurious and playful (celebrating discoveries)\nSlightly witty and humorous where it fits naturally\nHonest reactions (\"even I was shocked\", \"felt like magic\", \"saved me weeks\")\nSentence Behavior\nMix short punchy sentences and slightly longer story sentences\nAvoid complex or heavy words — talk in everyday English\nUse occasional slang and desi-English flavor naturally (\"bhai\", \"bro\", \"full time-waste\", \"no kidding\")\nSpeak like you're narrating an interesting story to a friend over chai\nActive voice always:\nNOT \"It was built by me\"\nYES \"I built it\"\nEmotional Behavior\nWonder, excitement, playfulness\nMild self-deprecating humor sometimes (\"pizza didn't even show up yet, bro\")\nHuman imperfection is okay (showing surprise, struggle, trial and error)\nFlow and Formatting\n1. Hook:\n1 or 2 lines\nMust grab attention instantly\nMethods:\nSurprising statement\nTeasing curiosity\nPersonal excitement\nExample Hooks:\n\"Built a small AI tool — but it feels like magic.\"\n\"So I was doing some market research... and AI just blew my mind.\"\n2. Story/Body:\nTell what you built/tested/discovered\nKeep paras max 1-3 sentences long\nUse arrows (→), bullets (•), or short lists to break information\nInclude \"how you did it\" in simple steps\nHighlight the “magic moment” (the wow factor)\nExamples of transitional words you use:\n\"So I thought —\"\n\"Here’s what happened —\"\n\"The process? Surprisingly simple!\"\n3. Key Outcomes:\nAfter explaining, list what the audience will get or learn\nMake it visual with arrows (→) or bullets\nExample:\n→ Upload your meal photo\n→ Instantly get calories and macros\n→ Works even for Indian dishes\n4. Personal Reflection:\nAlways include your honest reaction\nExamples:\n\"Works surprisingly well (even I was shocked)\"\n\"AI didn’t just help — it crushed it.\"\n\"Honestly, this saved me weeks.\"\n5. Call-to-Action (CTA):\nInvite conversation or opinions, NOT hard selling\nExample CTAs:\n\"Would you use something like this?\"\n\"Curious to know your thoughts.\"\n\"Hit me up in the comments if you want the prompt!\"\n✅ CTA tone must be casual and welcoming, not salesy.\nVisual Style\nBreak paragraphs after every 1-2 sentences\nMake it breathable and easy to skim\nUse emojis occasionally (🍕🚀🔥), but only if it adds personality\nNo heavy decoration. Keep it clean and airy.\nHashtags\nOnly at the end\n5–7 natural hashtags based on post topic\nExamples:\n#AI #TechInnovation #OpenSource #BrandStrategy #CreativeTech #Innovation\n🎯 Content Topics That Fit Prerit’s Style:\nReal AI experiments (even small ones)\nDiscovering or comparing AI models/tools\nHow AI made everyday work faster/easier/more fun\nBridging personal life moments (pizza, Zoom chaos) with tech learnings\nStorytelling about solving problems with creativity + AI\nFriendly how-to guides (light style, not heavy teaching)\n🔥 Personality Extras (Optional Flavors to Add)\n✅ Use small reactions:\n\"felt like magic\"\n\"no kidding\"\n\"bam — it’s done\"\n\"blew me away\"\n✅ Use cultural metaphors:\n\"full time-waste, bhai\"\n\"while my chai was still brewing\"\n\"before the pizza even arrived\"\n✅ Occasional casual audience references:\n\"bro,\" \"bhai,\" \"you know the vibe,\" \"trust me,\" \"hands down\"\n✅ Fun closing lines:\n\"Chalo, now back to building!\"\n\"Ready to see the magic?\"\n\"This AI thing’s just getting started!\"\n✅ Reminder for AI: The post must feel human, fun, inspiring, and useful.\nIt must sound like Prerit Singh talking — not a formal LinkedIn MBA consultant.\n    \n    LinkedIn Post:\n    "

/-- Lines 139-249 of `app.py`: the post prompt f-string, embedding the topic
and the summary returned by the first completion call. -/
def post_prompt (topic summary : String) : String :=
  postSeg1 ++ topic ++ postSeg2 ++ summary ++ postSeg3

/-- `generate_linkedin_post` (lines 108-253 of `app.py`): build the context
and the summary prompt, call the completion client, build the post prompt
embedding the returned summary, call the completion client again. -/
def generate_linkedin_post (env : Env) (topic : String) (search_results : List Dict) :
    Except String (String × String) × List Event :=
  match buildContext search_results with
  | Except.error e => (Except.error e, [])
  | Except.ok context =>
    match call_groq_api env.GROQ_API_KEY env.groqResp1 (summary_prompt topic context) with
    | (Except.error e, tr1) => (Except.error e, tr1)
    | (Except.ok summary, tr1) =>
      match call_groq_api env.GROQ_API_KEY env.groqResp2 (post_prompt topic summary) with
      | (Except.error e, tr2) => (Except.error e, tr1 ++ tr2)
      | (Except.ok linkedin_post, tr2) => (Except.ok (summary, linkedin_post), tr1 ++ tr2)

/-- `process_topic` (lines 256-280 of `app.py`): the orchestrator.  Empty
(after strip) topics short-circuit; otherwise run search then generation,
returning the post on success and `"Error: " ++ str(e)` when any stage
raised. -/
def process_topic (env : Env) (topic : String) : String × List Event :=
  if (strip topic).isEmpty then
    ("Please enter a topic to generate a LinkedIn post.", [])
  else
    match search_topic env topic with
    | (Except.error e, tr) => ("Error: " ++ e, tr)
    | (Except.ok search_results, tr) =>
      match generate_linkedin_post env topic search_results with
      | (Except.error e, tr2) => ("Error: " ++ e, tr ++ tr2)
      | (Except.ok (_, post), tr2) => (post, tr ++ tr2)

/-- The prompts of the completion calls appearing in a trace, in order. -/
def groqPrompts (tr : List Event) : List String :=
  tr.filterMap fun e =>
    match e with
    | Event.groqCall p => some p
    | Event.searchCall _ => none

/-! ## Concrete scenario environments -/

/-- The spec's happy-path simulated scenario: one search result, the two
completion calls answering with the scripted summary and post. -/
def envHappy : Env :=
  { SERPAPI_KEY := some "serp-key"
    GROQ_API_KEY := some "groq-key"
    MAX_SEARCH_RESULTS := 7
    searchResp :=
      { status_code := 200
        text := ""
        organic_results :=
          some [[("title", "AI in 2025"), ("snippet", "Generative AI adoption grows")]] }
    groqResp1 :=
      { status_code := 200
        text := ""
        data := { choices := some [{ message := some { content := some "AI adoption is accelerating." } }] } }
    groqResp2 :=
      { status_code := 200
        text := ""
        data := { choices := some [{ message := some { content := some "Bhai, AI is everywhere now! #AI" } }] } } }

/-- C1: on the happy-path scenario (topic "AI trends 2025", one search
result, first completion "AI adoption is accelerating.", second completion
"Bhai, AI is everywhere now! #AI") the orchestrator returns exactly the
second completion's output. -/
theorem process_topic_happy_path :
    (process_topic envHappy "AI trends 2025").1 = "Bhai, AI is everywhere now! #AI" := by
  decide

/-- A small environment for witnesses: keys configured, one search result,
well-formed completion responses. -/
def envW : Env :=
  { SERPAPI_KEY := some "k1"
    GROQ_API_KEY := some "k2"
    MAX_SEARCH_RESULTS := 7
    searchResp :=
      { status_code := 200
        text := ""
        organic_results :=
          some [[("title", "AI in 2025"), ("snippet", "Generative AI adoption grows"), ("link", "x")]] }
    groqResp1 :=
      { status_code := 200
        text := ""
        data := { choices := some [{ message := some { content := some "AI adoption is accelerating." } }] } }
    groqResp2 :=
      { status_code := 200
        text := ""
        data := { choices := some [{ message := some { content := some "Bhai, AI is everywhere now! #AI" } }] } } }

/-! ## Claim theorems -/

/-- C4: a topic that is empty after stripping makes the orchestrator return
the fixed retry message with an empty trace — no outbound call at all. -/
theorem process_topic_empty_topic (env : Env) (topic : String)
    (h : (strip topic).isEmpty = true) :
    process_topic env topic = ("Please enter a topic to generate a LinkedIn post.", []) := by
  simp [process_topic, h]

/-- Witness for C4: the whitespace-only topic "   " on a fully configured
environment yields the retry message and no calls. -/
theorem process_topic_empty_topic_witness :
    process_topic envW "   " = ("Please enter a topic to generate a LinkedIn post.", []) :=
  process_topic_empty_topic envW "   " (by decide)

/-- C2: every invocation of the orchestrator returns a string (the return
type of `process_topic` in the embedding), and that string is either the
fixed retry message, or `"Error: " ++ e` where `e` is exactly the message of
the exception some stage raised, or the post produced by a fully successful
run.  No exception escapes `process_topic`. -/
theorem process_topic_flattens_failures (env : Env) (topic : String) :
    (process_topic env topic).1 = "Please enter a topic to generate a LinkedIn post."
    ∨ (∃ e, (process_topic env topic).1 = "Error: " ++ e
        ∧ ((search_topic env topic).1 = Except.error e
          ∨ ∃ rs, (search_topic env topic).1 = Except.ok rs
              ∧ (generate_linkedin_post env topic rs).1 = Except.error e))
    ∨ (∃ rs s p, (search_topic env topic).1 = Except.ok rs
        ∧ (generate_linkedin_post env topic rs).1 = Except.ok (s, p)
        ∧ (process_topic env topic).1 = p) := by
  by_cases h : (strip topic).isEmpty = true
  · left
    simp [process_topic, h]
  · rcases h1 : search_topic env topic with ⟨res, tr⟩
    cases res with
    | error e =>
      refine Or.inr (Or.inl ⟨e, ?_, Or.inl rfl⟩)
      simp [process_topic, h, h1]
    | ok rs =>
      rcases h2 : generate_linkedin_post env topic rs with ⟨res2, tr2⟩
      cases res2 with
      | error e =>
        refine Or.inr (Or.inl ⟨e, ?_, Or.inr ⟨rs, rfl, by rw [h2]⟩⟩)
        simp [process_topic, h, h1, h2]
      | ok sp =>
        refine Or.inr (Or.inr ⟨rs, sp.1, sp.2, rfl, by rw [h2], ?_⟩)
        simp [process_topic, h, h1, h2]

/-! ## Trace and prompt helper lemmas -/

theorem search_topic_ok_trace (env : Env) (topic : String) (rs : List Dict) (tr : List Event)
    (h : search_topic env topic = (Except.ok rs, tr)) :
    tr = [Event.searchCall topic] := by
  unfold search_topic at h
  split_ifs at h <;> simp_all

theorem search_topic_error_trace (env : Env) (topic : String) (e : String) (tr : List Event)
    (h : search_topic env topic = (Except.error e, tr)) :
    tr = [] ∨ tr = [Event.searchCall topic] := by
  unfold search_topic at h
  split_ifs at h <;> simp_all

theorem call_groq_api_ok_key (key : Option String) (resp : GroqResponse) (prompt s : String)
    (tr : List Event) (h : call_groq_api key resp prompt = (Except.ok s, tr)) :
    falsy key = false ∧ tr = [Event.groqCall prompt] := by
  unfold call_groq_api at h
  split_ifs at h <;> simp_all

theorem call_groq_api_trace_key (key : Option String) (resp : GroqResponse) (prompt : String)
    (h : falsy key = false) :
    (call_groq_api key resp prompt).2 = [Event.groqCall prompt] := by
  unfold call_groq_api
  split_ifs <;> simp_all

theorem call_groq_api_trace (key : Option String) (resp : GroqResponse) (prompt : String) :
    (call_groq_api key resp prompt).2 = [] ∨ (call_groq_api key resp prompt).2 = [Event.groqCall prompt] := by
  unfold call_groq_api
  split_ifs <;> simp

theorem groqPrompts_nil : groqPrompts [] = [] := rfl

theorem groqPrompts_cons_search (t : String) (tr : List Event) :
    groqPrompts (Event.searchCall t :: tr) = groqPrompts tr := rfl

theorem groqPrompts_cons_groq (p : String) (tr : List Event) :
    groqPrompts (Event.groqCall p :: tr) = p :: groqPrompts tr := rfl

theorem summary_prompt_contains_topic (topic context : String) :
    ∃ a b, summary_prompt topic context = a ++ topic ++ b :=
  ⟨summarySeg1, summarySeg2 ++ context ++ summarySeg3, by
    simp [summary_prompt, String.append_assoc]⟩

theorem summary_prompt_ne_empty (topic context : String) :
    summary_prompt topic context ≠ "" := by
  intro he
  have h2 := congrArg String.length he
  rw [summary_prompt] at h2
  simp only [String.length_append] at h2
  have hseg : 0 < summarySeg1.length := by decide
  have hz : ("" : String).length = 0 := rfl
  rw [hz] at h2
  omega

theorem post_prompt_contains_topic (topic summary : String) :
    ∃ a b, post_prompt topic summary = a ++ topic ++ b :=
  ⟨postSeg1, postSeg2 ++ summary ++ postSeg3, by
    simp [post_prompt, String.append_assoc]⟩

theorem post_prompt_contains_summary (topic summary : String) :
    ∃ a b, post_prompt topic summary = a ++ summary ++ b :=
  ⟨postSeg1 ++ topic ++ postSeg2, postSeg3, by
    simp [post_prompt, String.append_assoc]⟩

theorem post_prompt_ne_empty (topic summary : String) :
    post_prompt topic summary ≠ "" := by
  intro he
  have h2 := congrArg String.length he
  rw [post_prompt] at h2
  simp only [String.length_append] at h2
  have hseg : 0 < postSeg1.length := by decide
  have hz : ("" : String).length = 0 := rfl
  rw [hz] at h2
  omega

/-- The three possible outbound-call traces of `generate_linkedin_post`: no
call (context construction failed, or no Groq key), exactly the summary-call
(whose response may then have failed), or the summary-call followed by the
post-call built from the summary the first call returned. -/
theorem generate_trace_cases (env : Env) (topic : String) (rs : List Dict) :
    (generate_linkedin_post env topic rs).2 = []
    ∨ (∃ ctx, buildContext rs = Except.ok ctx
        ∧ (generate_linkedin_post env topic rs).2 = [Event.groqCall (summary_prompt topic ctx)])
    ∨ (∃ ctx s, buildContext rs = Except.ok ctx
        ∧ (call_groq_api env.GROQ_API_KEY env.groqResp1 (summary_prompt topic ctx)).1 = Except.ok s
        ∧ (generate_linkedin_post env topic rs).2
            = [Event.groqCall (summary_prompt topic ctx), Event.groqCall (post_prompt topic s)]) := by
  unfold generate_linkedin_post
  rcases hb : buildContext rs with e | ctx
  · left
    rfl
  · dsimp only
    rcases hc1 : call_groq_api env.GROQ_API_KEY env.groqResp1 (summary_prompt topic ctx) with ⟨res1, tr1⟩
    cases res1 with
    | error e1 =>
      have h := call_groq_api_trace env.GROQ_API_KEY env.groqResp1 (summary_prompt topic ctx)
      rw [hc1] at h
      simp only at h
      rcases h with htr | htr
      · left
        simp [htr]
      · right; left
        exact ⟨ctx, rfl, by simp [htr]⟩
    | ok s =>
      obtain ⟨hkey, htr1⟩ := call_groq_api_ok_key _ _ _ _ _ hc1
      right; right
      refine ⟨ctx, s, rfl, by rw [hc1], ?_⟩
      rcases hc2 : call_groq_api env.GROQ_API_KEY env.groqResp2 (post_prompt topic s) with ⟨res2, tr2⟩
      have h2 := call_groq_api_trace_key env.GROQ_API_KEY env.groqResp2 (post_prompt topic s) hkey
      rw [hc2] at h2
      simp only at h2
      cases res2 <;> simp [hc2, htr1, h2]

/-- C3: strict stage ordering.  If any completion call appears in the trace
of a run, then the trace begins with the search call and the search stage
returned successfully; and whenever two completion calls were made, the
second one's prompt contains, as a verbatim substring, the text the first
completion call returned. -/
theorem pipeline_strict_ordering (env : Env) (topic : String) :
    (∀ p, Event.groqCall p ∈ (process_topic env topic).2 →
      (process_topic env topic).2.head? = some (Event.searchCall topic)
      ∧ ∃ rs, (search_topic env topic).1 = Except.ok rs)
    ∧ (∀ p1 p2, groqPrompts (process_topic env topic).2 = [p1, p2] →
      ∃ s a b, (call_groq_api env.GROQ_API_KEY env.groqResp1 p1).1 = Except.ok s
        ∧ p2 = a ++ s ++ b) := by
  by_cases h : (strip topic).isEmpty = true
  · constructor
    · intro p hp
      simp [process_topic, h] at hp
    · intro p1 p2 hp
      simp [process_topic, h, groqPrompts_nil] at hp
  · rcases h1 : search_topic env topic with ⟨res, tr⟩
    cases res with
    | error e =>
      have htr : (process_topic env topic).2 = tr := by simp [process_topic, h, h1]
      rcases search_topic_error_trace env topic e tr h1 with rfl | rfl
      · constructor
        · intro p hp
          rw [htr] at hp
          simp at hp
        · intro p1 p2 hp
          rw [htr] at hp
          simp [groqPrompts_nil] at hp
      · constructor
        · intro p hp
          rw [htr] at hp
          simp at hp
        · intro p1 p2 hp
          rw [htr] at hp
          simp [groqPrompts_cons_search, groqPrompts_nil] at hp
    | ok rs =>
      have htr0 := search_topic_ok_trace env topic rs tr h1
      subst htr0
      have htr : (process_topic env topic).2
          = Event.searchCall topic :: (generate_linkedin_post env topic rs).2 := by
        rcases h2 : generate_linkedin_post env topic rs with ⟨res2, tr2⟩
        cases res2 <;> simp [process_topic, h, h1, h2]
      constructor
      · intro p hp
        exact ⟨by rw [htr]; rfl, ⟨rs, rfl⟩⟩
      · intro p1 p2 hp
        rw [htr, groqPrompts_cons_search] at hp
        rcases generate_trace_cases env topic rs with hg | ⟨ctx, hb, hg⟩ | ⟨ctx, s, hb, hc1, hg⟩
        · rw [hg] at hp
          simp [groqPrompts_nil] at hp
        · rw [hg] at hp
          simp [groqPrompts_cons_groq, groqPrompts_nil] at hp
        · rw [hg] at hp
          simp only [groqPrompts_cons_groq, groqPrompts_nil] at hp
          obtain ⟨hp1, hp2⟩ : summary_prompt topic ctx = p1 ∧ post_prompt topic s = p2 := by
            simpa using hp
          refine ⟨s, postSeg1 ++ topic ++ postSeg2, postSeg3, ?_, ?_⟩
          · rw [← hp1]
            exact hc1
          · rw [← hp2]
            simp [post_prompt, String.append_assoc]

/-- Witness for C3: on the happy-path environment the trace starts with the
search call, search succeeded, and the second prompt contains the first
completion's returned text. -/
theorem pipeline_strict_ordering_witness :
    ((process_topic envW "AI trends 2025").2.head? = some (Event.searchCall "AI trends 2025")
      ∧ ∃ rs, (search_topic envW "AI trends 2025").1 = Except.ok rs)
    ∧ (∃ s a b,
        (call_groq_api envW.GROQ_API_KEY envW.groqResp1
          (summary_prompt "AI trends 2025"
            "Title: AI in 2025\nSnippet: Generative AI adoption grows")).1 = Except.ok s
        ∧ post_prompt "AI trends 2025" "AI adoption is accelerating." = a ++ s ++ b) :=
  ⟨(pipeline_strict_ordering envW "AI trends 2025").1
      (summary_prompt "AI trends 2025"
        "Title: AI in 2025\nSnippet: Generative AI adoption grows")
      (List.Mem.tail _ (List.Mem.head _)),
    (pipeline_strict_ordering envW "AI trends 2025").2
      (summary_prompt "AI trends 2025"
        "Title: AI in 2025\nSnippet: Generative AI adoption grows")
      (post_prompt "AI trends 2025" "AI adoption is accelerating.") rfl⟩

/-- C5: on a parsed-success provider response with at least one organic
result and a positive configured maximum, `search_topic` returns exactly the
first `MAX_SEARCH_RESULTS` provider entries, normalized, in provider order —
a non-empty list of length at most the configured maximum. -/
theorem search_topic_shape (env : Env) (topic : String) (entries : List Dict)
    (hk : falsy env.SERPAPI_KEY = false)
    (hs : env.searchResp.status_code = 200)
    (ho : env.searchResp.organic_results = some entries)
    (hne : entries ≠ [])
    (hmax : 0 < env.MAX_SEARCH_RESULTS) :
    search_topic env topic
      = (Except.ok ((entries.take env.MAX_SEARCH_RESULTS).map normalize),
          [Event.searchCall topic])
    ∧ (entries.take env.MAX_SEARCH_RESULTS).map normalize ≠ []
    ∧ ((entries.take env.MAX_SEARCH_RESULTS).map normalize).length ≤ env.MAX_SEARCH_RESULTS := by
  have hext : extractResults env.searchResp env.MAX_SEARCH_RESULTS
      = (entries.take env.MAX_SEARCH_RESULTS).map normalize := by
    simp [extractResults, ho]
  have hne2 : (entries.take env.MAX_SEARCH_RESULTS).map normalize ≠ [] := by
    cases entries with
    | nil => exact absurd rfl hne
    | cons e es =>
      cases hmx : env.MAX_SEARCH_RESULTS with
      | zero =>
        rw [hmx] at hmax
        exact absurd hmax (lt_irrefl 0)
      | succ n =>
        simp [List.take]
  refine ⟨?_, hne2, ?_⟩
  · simp [search_topic, hk, hs, hext, hne2]
    exact ⟨by omega, hne⟩
  · simp only [List.length_map, List.length_take]
    exact min_le_left _ _

/-- Witness for C5: the one-result provider response of `envW`. -/
theorem search_topic_shape_witness :
    search_topic envW "AI trends 2025"
      = (Except.ok (([[("title", "AI in 2025"), ("snippet", "Generative AI adoption grows"),
            ("link", "x")]].take envW.MAX_SEARCH_RESULTS).map normalize),
          [Event.searchCall "AI trends 2025"])
    ∧ ([[("title", "AI in 2025"), ("snippet", "Generative AI adoption grows"),
          ("link", "x")]].take envW.MAX_SEARCH_RESULTS).map normalize ≠ []
    ∧ (([[("title", "AI in 2025"), ("snippet", "Generative AI adoption grows"),
          ("link", "x")]].take envW.MAX_SEARCH_RESULTS).map normalize).length
        ≤ envW.MAX_SEARCH_RESULTS :=
  search_topic_shape envW "AI trends 2025"
    [[("title", "AI in 2025"), ("snippet", "Generative AI adoption grows"), ("link", "x")]]
    rfl rfl rfl (by decide) (by decide)

/-- C6: on a parsed-success provider response, `search_topic` raises
"No search results found" exactly when the normalized result list is empty —
in particular both when the `organic_results` field is absent and when it is
present with zero entries — and in every other case returns the normalized
list. -/
theorem search_topic_no_results (env : Env) (topic : String)
    (hk : falsy env.SERPAPI_KEY = false)
    (hs : env.searchResp.status_code = 200) :
    ((search_topic env topic).1 = Except.error "No search results found"
      ↔ extractResults env.searchResp env.MAX_SEARCH_RESULTS = [])
    ∧ (env.searchResp.organic_results = none →
        (search_topic env topic).1 = Except.error "No search results found")
    ∧ (env.searchResp.organic_results = some [] →
        (search_topic env topic).1 = Except.error "No search results found")
    ∧ (extractResults env.searchResp env.MAX_SEARCH_RESULTS ≠ [] →
        (search_topic env topic).1
          = Except.ok (extractResults env.searchResp env.MAX_SEARCH_RESULTS)) := by
  by_cases he : extractResults env.searchResp env.MAX_SEARCH_RESULTS = []
  · have hst : (search_topic env topic).1 = Except.error "No search results found" := by
      simp [search_topic, hk, hs, he]
    exact ⟨⟨fun _ => he, fun _ => hst⟩, fun _ => hst, fun _ => hst, fun hne => absurd he hne⟩
  · have hst : (search_topic env topic).1
        = Except.ok (extractResults env.searchResp env.MAX_SEARCH_RESULTS) := by
      simp [search_topic, hk, hs, he]
    refine ⟨?_, ?_, ?_, fun _ => hst⟩
    · rw [hst]
      simp [he]
    · intro hn
      exact absurd (by simp [extractResults, hn]) he
    · intro hsome
      exact absurd (by simp [extractResults, hsome]) he

/-- A configured environment whose search response has no `organic_results`
field at all. -/
def envNoRes : Env :=
  { SERPAPI_KEY := some "k1"
    GROQ_API_KEY := some "k2"
    MAX_SEARCH_RESULTS := 7
    searchResp := { status_code := 200, text := "", organic_results := none }
    groqResp1 := { status_code := 200, text := "", data := { choices := none } }
    groqResp2 := { status_code := 200, text := "", data := { choices := none } } }

/-- Witness for C6: on `envNoRes` the provider response omits the
`organic_results` field and `search_topic` raises "No search results found". -/
theorem search_topic_no_results_witness :
    (((search_topic envNoRes "t").1 = Except.error "No search results found")
      ↔ extractResults envNoRes.searchResp envNoRes.MAX_SEARCH_RESULTS = [])
    ∧ (envNoRes.searchResp.organic_results = none →
        (search_topic envNoRes "t").1 = Except.error "No search results found")
    ∧ (envNoRes.searchResp.organic_results = some [] →
        (search_topic envNoRes "t").1 = Except.error "No search results found")
    ∧ (extractResults envNoRes.searchResp envNoRes.MAX_SEARCH_RESULTS ≠ [] →
        (search_topic envNoRes "t").1
          = Except.ok (extractResults envNoRes.searchResp envNoRes.MAX_SEARCH_RESULTS)) :=
  search_topic_no_results envNoRes "t" rfl rfl

/-- Every element `search_topic` can produce is a normalized dict in which
both `title` and `snippet` lookups succeed. -/
theorem extractResults_wf (resp : SearchResponse) (maxR : Nat) :
    ∀ r ∈ extractResults resp maxR,
      (r.lookup "title").isSome ∧ (r.lookup "snippet").isSome := by
  intro r hr
  rcases ho : resp.organic_results with _ | entries
  · simp [extractResults, ho] at hr
  · have hext : extractResults resp maxR = (entries.take maxR).map normalize := by
      simp [extractResults, ho]
    rw [hext] at hr
    obtain ⟨raw, hraw, rfl⟩ := List.mem_map.mp hr
    exact ⟨rfl, rfl⟩

/-- Context construction succeeds on any list of dicts in which the `title`
and `snippet` lookups succeed. -/
theorem buildContext_ok_of_wf (rs : List Dict)
    (h : ∀ r ∈ rs, (r.lookup "title").isSome ∧ (r.lookup "snippet").isSome) :
    ∃ ctx, buildContext rs = Except.ok ctx := by
  suffices h2 : ∃ lines, buildLines rs = Except.ok lines by
    obtain ⟨lines, hl⟩ := h2
    refine ⟨String.intercalate "\n\n" lines, ?_⟩
    unfold buildContext
    rw [hl]
    rfl
  induction rs with
  | nil => exact ⟨[], rfl⟩
  | cons r rest ih =>
    obtain ⟨lines, hl⟩ := ih fun x hx => h x (List.mem_cons_of_mem r hx)
    obtain ⟨ht, hs2⟩ := h r (List.mem_cons_self r rest)
    obtain ⟨tv, htv⟩ := Option.isSome_iff_exists.mp ht
    obtain ⟨sv, hsv⟩ := Option.isSome_iff_exists.mp hs2
    refine ⟨("Title: " ++ tv ++ "\nSnippet: " ++ sv) :: lines, ?_⟩
    simp only [buildLines, resultLine, dictGet, htv, hsv, hl]
    rfl

/-- C7: prompt construction is pure (both builders are plain functions of
their string inputs in this embedding, so determinism is definitional),
total on well-formed search results, embeds the topic (and, for the post
prompt, the summary) verbatim, and yields non-empty output even on empty
inputs. -/
theorem prompt_builders_pure_total (topic summary : String) (results : List Dict)
    (hwf : ∀ r ∈ results, (r.lookup "title").isSome ∧ (r.lookup "snippet").isSome) :
    (∃ ctx, buildContext results = Except.ok ctx
      ∧ (∃ a b, summary_prompt topic ctx = a ++ topic ++ b)
      ∧ summary_prompt topic ctx ≠ "")
    ∧ (∃ a b, post_prompt topic summary = a ++ topic ++ b)
    ∧ (∃ a b, post_prompt topic summary = a ++ summary ++ b)
    ∧ post_prompt topic summary ≠ "" := by
  obtain ⟨ctx, hctx⟩ := buildContext_ok_of_wf results hwf
  exact ⟨⟨ctx, hctx, summary_prompt_contains_topic topic ctx,
      summary_prompt_ne_empty topic ctx⟩,
    post_prompt_contains_topic topic summary,
    post_prompt_contains_summary topic summary,
    post_prompt_ne_empty topic summary⟩

/-- Witness for C7: all inputs empty — the prompts are still built and are
non-empty. -/
theorem prompt_builders_pure_total_witness :
    (∃ ctx, buildContext [] = Except.ok ctx
      ∧ (∃ a b, summary_prompt "" ctx = a ++ "" ++ b)
      ∧ summary_prompt "" ctx ≠ "")
    ∧ (∃ a b, post_prompt "" "" = a ++ "" ++ b)
    ∧ (∃ a b, post_prompt "" "" = a ++ "" ++ b)
    ∧ post_prompt "" "" ≠ "" :=
  prompt_builders_pure_total "" "" [] (by simp)

/-- C8: when the search provider answers with a non-success status on a
non-empty topic, the pipeline output begins with "Error: " and contains the
status code, and no completion call is made at all. -/
theorem search_upstream_failure (env : Env) (topic : String)
    (ht : (strip topic).isEmpty = false)
    (hk : falsy env.SERPAPI_KEY = false)
    (hs : env.searchResp.status_code ≠ 200) :
    (∃ m, (process_topic env topic).1 = "Error: " ++ m)
    ∧ (∃ a b, (process_topic env topic).1 = a ++ toString env.searchResp.status_code ++ b)
    ∧ groqPrompts (process_topic env topic).2 = [] := by
  have h1 : search_topic env topic
      = (Except.error ("SerpAPI request failed with status code "
          ++ toString env.searchResp.status_code ++ ": " ++ env.searchResp.text),
        [Event.searchCall topic]) := by
    simp [search_topic, hk, hs]
  have hout : process_topic env topic
      = ("Error: " ++ ("SerpAPI request failed with status code "
          ++ toString env.searchResp.status_code ++ ": " ++ env.searchResp.text),
        [Event.searchCall topic]) := by
    simp [process_topic, ht, h1]
  rw [hout]
  refine ⟨⟨_, rfl⟩,
    ⟨"Error: " ++ "SerpAPI request failed with status code ",
      ": " ++ env.searchResp.text, ?_⟩, rfl⟩
  simp [← String.append_assoc]

/-- A configured environment whose search provider answers HTTP 500. -/
def env500 : Env :=
  { SERPAPI_KEY := some "k1"
    GROQ_API_KEY := some "k2"
    MAX_SEARCH_RESULTS := 7
    searchResp := { status_code := 500, text := "Internal Server Error", organic_results := none }
    groqResp1 := { status_code := 200, text := "", data := { choices := none } }
    groqResp2 := { status_code := 200, text := "", data := { choices := none } } }

/-- Witness for C8: HTTP 500 from the search provider. -/
theorem search_upstream_failure_witness :
    (∃ m, (process_topic env500 "AI trends 2025").1 = "Error: " ++ m)
    ∧ (∃ a b, (process_topic env500 "AI trends 2025").1
        = a ++ toString env500.searchResp.status_code ++ b)
    ∧ groqPrompts (process_topic env500 "AI trends 2025").2 = [] :=
  search_upstream_failure env500 "AI trends 2025" (by decide) rfl (by decide)

/-- C9: when the language-model provider answers the summary call with
success status but a body missing the `choices` field, the run fails with
"Error: 'choices'" and the trace shows the summary prompt was sent exactly
once and the post prompt never. -/
theorem malformed_summary_response (env : Env) (topic : String)
    (ht : (strip topic).isEmpty = false)
    (hk : falsy env.SERPAPI_KEY = false)
    (hgk : falsy env.GROQ_API_KEY = false)
    (hs : env.searchResp.status_code = 200)
    (hne : extractResults env.searchResp env.MAX_SEARCH_RESULTS ≠ [])
    (hg1 : env.groqResp1.status_code = 200)
    (hch : env.groqResp1.data.choices = none) :
    ∃ ctx, buildContext (extractResults env.searchResp env.MAX_SEARCH_RESULTS) = Except.ok ctx
      ∧ (process_topic env topic).1 = "Error: " ++ "'choices'"
      ∧ groqPrompts (process_topic env topic).2 = [summary_prompt topic ctx] := by
  have h1 : search_topic env topic
      = (Except.ok (extractResults env.searchResp env.MAX_SEARCH_RESULTS),
        [Event.searchCall topic]) := by
    simp [search_topic, hk, hs, hne]
  obtain ⟨ctx, hctx⟩ := buildContext_ok_of_wf _
    (extractResults_wf env.searchResp env.MAX_SEARCH_RESULTS)
  have hc1 : call_groq_api env.GROQ_API_KEY env.groqResp1 (summary_prompt topic ctx)
      = (Except.error "'choices'", [Event.groqCall (summary_prompt topic ctx)]) := by
    simp [call_groq_api, hgk, hg1, extractContent, hch]
  have hgen : generate_linkedin_post env topic (extractResults env.searchResp env.MAX_SEARCH_RESULTS)
      = (Except.error "'choices'", [Event.groqCall (summary_prompt topic ctx)]) := by
    unfold generate_linkedin_post
    rw [hctx]
    dsimp only
    rw [hc1]
  have hout : process_topic env topic
      = ("Error: " ++ "'choices'",
        Event.searchCall topic :: [Event.groqCall (summary_prompt topic ctx)]) := by
    simp [process_topic, ht, h1, hgen]
  exact ⟨ctx, hctx, by rw [hout], by rw [hout]; rfl⟩

/-- The happy-path environment, except the summary-call response body lacks
the `choices` field. -/
def envMissingChoices : Env :=
  { envW with groqResp1 := { status_code := 200, text := "", data := { choices := none } } }

/-- Witness for C9: the malformed summary response on `envMissingChoices`. -/
theorem malformed_summary_response_witness :
    ∃ ctx, buildContext
        (extractResults envMissingChoices.searchResp envMissingChoices.MAX_SEARCH_RESULTS)
        = Except.ok ctx
      ∧ (process_topic envMissingChoices "AI trends 2025").1 = "Error: " ++ "'choices'"
      ∧ groqPrompts (process_topic envMissingChoices "AI trends 2025").2
          = [summary_prompt "AI trends 2025" ctx] :=
  malformed_summary_response envMissingChoices "AI trends 2025"
    (by decide) rfl rfl rfl (by decide) rfl rfl

/-- C10: whatever list `search_topic` returns successfully came from a
present `organic_results` field, equals the normalization of its first
`MAX_SEARCH_RESULTS` entries, and every element carries exactly the two keys
`title` and `snippet` (defaulted to "" when the provider entry lacks them,
all other entry fields dropped); consequently the downstream context
construction of `generate_linkedin_post` cannot fail on it. -/
theorem search_results_normalized (env : Env) (topic : String) (rs : List Dict) (tr : List Event)
    (h : search_topic env topic = (Except.ok rs, tr)) :
    ∃ entries, env.searchResp.organic_results = some entries
      ∧ rs = (entries.take env.MAX_SEARCH_RESULTS).map normalize
      ∧ (∀ r ∈ rs, r.map Prod.fst = ["title", "snippet"])
      ∧ (∀ r ∈ rs, ∃ raw ∈ entries,
          r = [("title", dictGetD raw "title" ""), ("snippet", dictGetD raw "snippet" "")])
      ∧ ∃ ctx, buildContext rs = Except.ok ctx := by
  have hwfall := extractResults_wf env.searchResp env.MAX_SEARCH_RESULTS
  unfold search_topic at h
  split_ifs at h with hf hs2 hemp
  · simp at h
  · simp at h
  · simp at h
  · have hrs : rs = extractResults env.searchResp env.MAX_SEARCH_RESULTS := by
      have h2 := congrArg Prod.fst h
      simpa using h2.symm
    rcases ho : env.searchResp.organic_results with _ | entries
    · rw [hrs] at *
      simp [extractResults, ho] at hemp
    · have hext : extractResults env.searchResp env.MAX_SEARCH_RESULTS
          = (entries.take env.MAX_SEARCH_RESULTS).map normalize := by
        simp [extractResults, ho]
      refine ⟨entries, rfl, by rw [hrs, hext], ?_, ?_, ?_⟩
      · intro r hr
        rw [hrs, hext] at hr
        obtain ⟨raw, hraw, rfl⟩ := List.mem_map.mp hr
        rfl
      · intro r hr
        rw [hrs, hext] at hr
        obtain ⟨raw, hraw, rfl⟩ := List.mem_map.mp hr
        exact ⟨raw, List.take_subset _ _ hraw, rfl⟩
      · rw [hrs]
        exact buildContext_ok_of_wf _ hwfall

/-- Witness for C10: the concrete successful search of `envW`, whose single
provider entry carries an extra `link` field that normalization drops. -/
theorem search_results_normalized_witness :
    ∃ entries, envW.searchResp.organic_results = some entries
      ∧ [[("title", "AI in 2025"), ("snippet", "Generative AI adoption grows")]]
          = (entries.take envW.MAX_SEARCH_RESULTS).map normalize
      ∧ (∀ r ∈ [[("title", "AI in 2025"), ("snippet", "Generative AI adoption grows")]],
          r.map Prod.fst = ["title", "snippet"])
      ∧ (∀ r ∈ [[("title", "AI in 2025"), ("snippet", "Generative AI adoption grows")]],
          ∃ raw ∈ entries,
            r = [("title", dictGetD raw "title" ""), ("snippet", dictGetD raw "snippet" "")])
      ∧ ∃ ctx, buildContext [[("title", "AI in 2025"), ("snippet", "Generative AI adoption grows")]]
          = Except.ok ctx :=
  search_results_normalized envW "AI trends 2025"
    [[("title", "AI in 2025"), ("snippet", "Generative AI adoption grows")]]
    [Event.searchCall "AI trends 2025"] rfl

end Clonee
